import Mathlib

/-!
Shallow embedding of the ArtnetViz repository (Art-Net listener, test-pattern
generator, DMX recorder/playback) and verification of its specification.

Conventions of the embedding:
* Python `bytes` values become `List ℕ` (one natural per byte).
* Python dicts keyed by universe become association lists `List (ℕ × α)`;
  `List.lookup` plays the role of `dict.get`, and `dictSet` of `d[k] = v`.
* Wall-clock samples (`time.time()`) become explicit `ℚ` arguments, so the
  loops become pure folds over the list of samples they would observe.
* `numpy` buffers of dtype uint8 become `List ℕ`; `np.zeros(512)` is
  `List.replicate 512 0`.
-/

/-- A DMX channel buffer: `np.zeros(512, dtype=np.uint8)`. -/
def zeros512 : List ℕ := List.replicate 512 0

/-- Python dict assignment `d[k] = v` on an association list: replaces the
value of an existing key, otherwise appends the new binding. -/
def dictSet (d : List (ℕ × List ℕ)) (k : ℕ) (v : List ℕ) : List (ℕ × List ℕ) :=
  if (d.lookup k).isSome then
    d.map (fun p => if p.1 = k then (k, v) else p)
  else
    d ++ [(k, v)]

/-- Python `sorted` on a list of ints (any correct sort of naturals agrees
with it extensionally, since sorted permutations are unique). -/
def pysorted (l : List ℕ) : List ℕ := List.insertionSort (· ≤ ·) l

/-- The `for universe in universes: if universe not in self.buffers:
self.buffers[universe] = np.zeros(512)` loop shared by `set_universes` and
`ArtNetPlaybackSource.start`. -/
def addMissingZeros (b : List (ℕ × List ℕ)) (us : List ℕ) : List (ℕ × List ℕ) :=
  us.foldl (fun b u => if (b.lookup u).isSome then b else b ++ [(u, zeros512)]) b

namespace ArtNetListener

/-- `ARTNET_HEADER = b'Art-Net\0'` as bytes. -/
def ARTNET_HEADER : List ℕ := [65, 114, 116, 45, 78, 101, 116, 0]

/-- `ARTNET_OPDMX = 0x5000`. -/
def ARTNET_OPDMX : ℕ := 0x5000

/-- The observable state of an `ArtNetListener` (socket and thread handles,
which are pure I/O resources, are not part of the data model). -/
structure State where
  universes : List ℕ
  buffers : List (ℕ × List ℕ)
  running : Bool
deriving Repr, DecidableEq

/-- `ArtNetListener.__init__` with a universe list (None/empty ⇒ `[0]`). -/
def init (universes : List ℕ) : State :=
  let us := if universes = [] then [0] else pysorted universes
  { universes := us
    buffers := us.map (fun u => (u, zeros512))
    running := false }

/-- Little-endian 16-bit decode of `data[lo:lo+2]` (`struct.unpack("<H", ·)`). -/
def leWord (data : List ℕ) (lo : ℕ) : ℕ :=
  data.getD lo 0 + 256 * data.getD (lo + 1) 0

/-- Big-endian 16-bit decode of `data[lo:lo+2]` (`struct.unpack(">H", ·)`). -/
def beWord (data : List ℕ) (lo : ℕ) : ℕ :=
  256 * data.getD lo 0 + data.getD (lo + 1) 0

/-- `ArtNetListener._process_packet`: validates the datagram and, for a DMX
packet addressed to a monitored universe, replaces that universe's buffer
with the byte slice `data[18 : 18+length]`. -/
def processPacket (st : State) (data : List ℕ) : State :=
  if data.length < 18 ∨ data.take 8 ≠ ARTNET_HEADER then st
  else if leWord data 8 ≠ ARTNET_OPDMX then st
  else if leWord data 14 ∈ st.universes then
    { st with buffers :=
        dictSet st.buffers (leWord data 14) ((data.drop 18).take (beWord data 16)) }
  else st

/-- `ArtNetListener.get_buffer`: the stored buffer, or 512 zeros if absent. -/
def getBuffer (st : State) (univ : ℕ) : List ℕ :=
  (st.buffers.lookup univ).getD zeros512

/-- `ArtNetListener.start`: no-op when already running, else transitions to
the running state (socket/thread creation is I/O and not modelled). -/
def start (st : State) : State :=
  if st.running then st else { st with running := true }

end ArtNetListener

section DictLemmas

theorem lookup_cons_self (a : ℕ) (b : List ℕ) (d : List (ℕ × List ℕ)) :
    List.lookup a ((a, b) :: d) = some b := by
  simp [List.lookup]

theorem lookup_cons_ne (a k : ℕ) (b : List ℕ) (d : List (ℕ × List ℕ))
    (h : k ≠ a) : List.lookup k ((a, b) :: d) = List.lookup k d := by
  have hb : (k == a) = false := beq_eq_false_iff_ne.mpr h
  simp [List.lookup, hb]

theorem lookup_append_left (d₁ d₂ : List (ℕ × List ℕ)) (k : ℕ) (v : List ℕ)
    (h : d₁.lookup k = some v) : (d₁ ++ d₂).lookup k = some v := by
  induction d₁ with
  | nil => simp [List.lookup] at h
  | cons p d ih =>
    obtain ⟨a, b⟩ := p
    by_cases hk : k = a
    · subst hk
      rw [lookup_cons_self] at h
      rw [List.cons_append, lookup_cons_self]
      exact h
    · rw [lookup_cons_ne _ _ _ _ hk] at h
      rw [List.cons_append, lookup_cons_ne _ _ _ _ hk]
      exact ih h

theorem lookup_append_right (d₁ d₂ : List (ℕ × List ℕ)) (k : ℕ)
    (h : d₁.lookup k = none) : (d₁ ++ d₂).lookup k = d₂.lookup k := by
  induction d₁ with
  | nil => simp
  | cons p d ih =>
    obtain ⟨a, b⟩ := p
    by_cases hk : k = a
    · subst hk
      rw [lookup_cons_self] at h
      exact absurd h (by simp)
    · rw [lookup_cons_ne _ _ _ _ hk] at h
      rw [List.cons_append, lookup_cons_ne _ _ _ _ hk]
      exact ih h

theorem lookup_dictSet_self (d : List (ℕ × List ℕ)) (k : ℕ) (v : List ℕ) :
    (dictSet d k v).lookup k = some v := by
  unfold dictSet
  split
  · next h =>
    induction d with
    | nil => simp at h
    | cons p d ih =>
      obtain ⟨a, b⟩ := p
      by_cases hk : a = k
      · subst hk
        simp only [List.map_cons, if_pos rfl]
        exact lookup_cons_self a v _
      · have hk' : k ≠ a := fun hkk => hk hkk.symm
        rw [lookup_cons_ne _ _ _ _ hk'] at h
        simp only [List.map_cons, if_neg hk]
        rw [lookup_cons_ne _ _ _ _ hk']
        exact ih h
  · next h =>
    have hnone : d.lookup k = none := by
      cases hl : d.lookup k with
      | none => rfl
      | some v' => rw [hl] at h; simp at h
    rw [lookup_append_right _ _ _ hnone, lookup_cons_self]

theorem lookup_map_update_ne (d : List (ℕ × List ℕ)) (k k' : ℕ) (v : List ℕ)
    (h : k' ≠ k) :
    (d.map (fun p => if p.1 = k then (k, v) else p)).lookup k' = d.lookup k' := by
  induction d with
  | nil => simp
  | cons p d ih =>
    obtain ⟨a, b⟩ := p
    by_cases hk : a = k
    · subst hk
      rw [List.map_cons, if_pos (show (a, b).1 = a from rfl)]
      rw [lookup_cons_ne _ _ _ _ h, lookup_cons_ne _ _ _ _ h]
      exact ih
    · rw [List.map_cons, if_neg (show ¬(a, b).1 = k from hk)]
      by_cases hk' : k' = a
      · subst hk'
        rw [lookup_cons_self, lookup_cons_self]
      · rw [lookup_cons_ne _ _ _ _ hk', lookup_cons_ne _ _ _ _ hk']
        exact ih

theorem lookup_dictSet_ne (d : List (ℕ × List ℕ)) (k k' : ℕ) (v : List ℕ)
    (h : k' ≠ k) : (dictSet d k v).lookup k' = d.lookup k' := by
  unfold dictSet
  split
  · exact lookup_map_update_ne d k k' v h
  · cases hl : d.lookup k' with
    | some v' => exact lookup_append_left _ _ _ _ hl
    | none =>
      rw [lookup_append_right _ _ _ hl, lookup_cons_ne _ _ _ _ h]
      rfl

end DictLemmas

/-- The normalization `set_universes` applies to its argument: an empty list
becomes `[0]`, then the list is sorted. -/
def normUniverses (universes : List ℕ) : List ℕ :=
  pysorted (if universes = [] then [0] else universes)

/-- Shared body of `set_universes` (textually identical in `ArtNetListener`
and `ArtNetPlaybackSource`): an empty input normalizes to `[0]`, the input is
sorted, and if it differs from the current list the buffer dict drops keys
outside the new list and gains zero-filled entries for new universes.
Returns the new universe list, the new buffer dict, and the changed flag. -/
def setUniversesCore (oldUniverses : List ℕ) (oldBuffers : List (ℕ × List ℕ))
    (universes : List ℕ) : List ℕ × List (ℕ × List ℕ) × Bool :=
  if oldUniverses = normUniverses universes then (oldUniverses, oldBuffers, false)
  else
    (normUniverses universes,
     addMissingZeros
       (oldBuffers.filter (fun p => p.1 ∈ normUniverses universes))
       (normUniverses universes),
     true)

/-- `ArtNetListener.set_universes`. -/
def ArtNetListener.setUniverses (st : ArtNetListener.State) (universes : List ℕ) :
    ArtNetListener.State × Bool :=
  let r := setUniversesCore st.universes st.buffers universes
  ({ st with universes := r.1, buffers := r.2.1 }, r.2.2)

namespace ArtNetTestSource

/-- The observable state of an `ArtNetTestSource` (the thread handle is not
part of the data model; the pattern type is fixed to the horizontal gradient,
the only pattern the claims are about). -/
structure State where
  universes : List ℕ
  buffers : List (ℕ × List ℕ)
  running : Bool
  frame_counter : ℕ
  fps : ℕ
  speed : ℚ
deriving Repr, DecidableEq

/-- Per-channel value of `_generate_horizontal_gradient`:
`value = int((i / 511) * 255)`. Python's `int` truncates toward zero; the
argument is nonnegative and `i*255/511` is never closer than `1/511` to an
integer from below (255 and 511 are coprime), which dwarfs the double
rounding error, so the truncation equals exact natural division. -/
def gradientValue (i : ℕ) : ℕ := i * 255 / 511

/-- The full 512-channel buffer `_generate_horizontal_gradient` writes. -/
def gradientBuffer : List ℕ := (List.range 512).map gradientValue

/-- The spec's claimed per-channel formula, written from the spec's words:
`value[i] = round(i/511 × 255)`. The value `i*255/511` is never exactly
half-integral (511 is odd), so rounding is unambiguous and equals
`⌊i*255/511 + 1/2⌋ = (2*i*255 + 511) / 1022` in natural arithmetic. -/
def gradientValueSpec (i : ℕ) : ℕ := (2 * (i * 255) + 511) / 1022

/-- `_generate_horizontal_gradient`: overwrites every monitored universe's
buffer with the gradient; takes no time/frame argument. -/
def generateHorizontalGradient (st : State) : State :=
  { st with buffers := st.universes.foldl (fun b u => dictSet b u gradientBuffer) st.buffers }

/-- `ArtNetTestSource.get_buffer`. -/
def getBuffer (st : State) (univ : ℕ) : List ℕ :=
  (st.buffers.lookup univ).getD zeros512

/-- `ArtNetTestSource.start`: no-op when already running. -/
def start (st : State) : State :=
  if st.running then st else { st with running := true }

/-- `interval = 1.0 / self.fps` computed at the top of `_pattern_thread`. -/
def frameInterval (fps : ℕ) : ℚ := 1 / fps

/-- The timing state carried across iterations of `_pattern_thread`. -/
structure LoopState where
  next_time : ℚ
  frame_counter : ℕ
deriving Repr, DecidableEq

/-- One iteration of `_pattern_thread` after the frame is generated: the
thread samples `now = time.time()`, sleeps `next_time - now` if positive,
and then sets `next_time = now + interval`. -/
def patternLoopIter (interval : ℚ) (st : LoopState) (now : ℚ) : LoopState :=
  { next_time := now + interval
    frame_counter := st.frame_counter + 1 }

/-- Running `_pattern_thread` over the list of wall-clock samples its
iterations observe. -/
def patternLoopRun (interval : ℚ) (st : LoopState) (nows : List ℚ) : LoopState :=
  nows.foldl (patternLoopIter interval) st

end ArtNetTestSource

/-- Python `int(q)` on a float/rational argument: truncation toward zero. -/
def pyTrunc (q : ℚ) : ℤ :=
  if 0 ≤ q then ⌊q⌋ else -⌊-q⌋

/-- A JSON value, as produced/consumed by Python's `json.dump`/`json.load`.
Python round-trips ints and floats exactly (`repr` round-trip guarantee), so
numbers are carried exactly: `int` for Python ints, `num` for floats (every
IEEE double is a rational). -/
inductive Json where
  | str : String → Json
  | int : ℤ → Json
  | num : ℚ → Json
  | arr : List Json → Json
  | obj : List (String × Json) → Json

namespace DMXRecorder

/-- One captured frame, as appended by `_record_thread`:
`{'timecode': …, 'frame': …, 'data': {str(universe): [ints], …}}`. -/
structure RecFrame where
  timecode : ℤ
  frame : ℕ
  data : List (String × List ℕ)
deriving Repr, DecidableEq

/-- The `metadata` dict of a recording. `frame_count` and `duration` are
absent until `stop_recording` finalizes them. -/
structure RecMetadata where
  timestamp : String
  frame_rate : ℕ
  universes : List ℕ
  frame_count : Option ℕ
  duration : Option ℚ
deriving Repr, DecidableEq

/-- An in-memory recording: `{'metadata': …, 'frames': […]}`. -/
structure Recording where
  metadata : RecMetadata
  frames : List RecFrame
deriving Repr, DecidableEq

/-- Serialize the metadata dict in the key order the code creates it
(`frame_count`/`duration` are appended by `stop_recording` when present). -/
def encodeMetadata (m : RecMetadata) : Json :=
  .obj ([("timestamp", .str m.timestamp),
         ("frame_rate", .int (m.frame_rate : ℤ)),
         ("universes", .arr (m.universes.map (fun u : ℕ => .int (u : ℤ))))]
    ++ (match m.frame_count with
        | none => []
        | some n => [("frame_count", .int (n : ℤ))])
    ++ (match m.duration with
        | none => []
        | some q => [("duration", .num q)]))

/-- Serialize one captured frame. -/
def encodeFrame (f : RecFrame) : Json :=
  .obj [("timecode", .int f.timecode),
        ("frame", .int (f.frame : ℤ)),
        ("data", .obj (f.data.map (fun p => (p.1, .arr (p.2.map (fun b : ℕ => .int (b : ℤ)))))))]

/-- `json.dump(self.current_recording, f)`: the file content written by
`stop_recording`. -/
def encodeRecording (r : Recording) : Json :=
  .obj [("metadata", encodeMetadata r.metadata),
        ("frames", .arr (r.frames.map encodeFrame))]

/-- Read a JSON value as a nonnegative int (universe ids, frame numbers and
DMX bytes are naturals in the data model). -/
def decodeNat : Json → Option ℕ
  | .int n => if 0 ≤ n then some n.toNat else none
  | _ => none

/-- Read a sequence of JSON ints. -/
def decodeNatSeq : List Json → Option (List ℕ)
  | [] => some []
  | j :: js => do
      let n ← decodeNat j
      let ns ← decodeNatSeq js
      pure (n :: ns)

/-- Read a JSON array of ints. -/
def decodeNatList : Json → Option (List ℕ)
  | .arr xs => decodeNatSeq xs
  | _ => none

/-- Read the per-universe entries of a frame's `data` dict. -/
def decodeDataEntries : List (String × Json) → Option (List (String × List ℕ))
  | [] => some []
  | p :: ps => do
      let v ← decodeNatList p.2
      let vs ← decodeDataEntries ps
      pure ((p.1, v) :: vs)

/-- Read one frame back, as `_playback_thread` consumes it. -/
def decodeFrame : Json → Option RecFrame
  | .obj fields => do
      let tc ← match fields.lookup "timecode" with
        | some (.int n) => some n
        | _ => none
      let fr ← match fields.lookup "frame" with
        | some j => decodeNat j
        | none => none
      let dj ← fields.lookup "data"
      let d ← match dj with
        | .obj entries => decodeDataEntries entries
        | _ => none
      pure { timecode := tc, frame := fr, data := d }
  | _ => none

/-- Read a sequence of frames. -/
def decodeFrameSeq : List Json → Option (List RecFrame)
  | [] => some []
  | j :: js => do
      let f ← decodeFrame j
      let fs ← decodeFrameSeq js
      pure (f :: fs)

/-- Read the metadata dict back, as `load_recording` and the playback path
consume it (`frame_count`/`duration` may be absent). -/
def decodeMetadata : Json → Option RecMetadata
  | .obj fields => do
      let ts ← match fields.lookup "timestamp" with
        | some (.str s) => some s
        | _ => none
      let fr ← match fields.lookup "frame_rate" with
        | some j => decodeNat j
        | none => none
      let us ← match fields.lookup "universes" with
        | some j => decodeNatList j
        | none => none
      let fc ← match fields.lookup "frame_count" with
        | none => some none
        | some j => (decodeNat j).map some
      let du ← match fields.lookup "duration" with
        | none => some none
        | some (.num q) => some (some q)
        | some _ => none
      pure { timestamp := ts, frame_rate := fr, universes := us,
             frame_count := fc, duration := du }
  | _ => none

/-- Parse a whole recording file: `load_recording`'s `json.load` plus its
`'metadata'`/`'frames'` key check, together with the field reads the
loading and playback paths perform on the parsed dict. -/
def decodeRecording : Json → Option Recording
  | .obj fields => do
      let mj ← fields.lookup "metadata"
      let fj ← fields.lookup "frames"
      let m ← decodeMetadata mj
      let fs ← match fj with
        | .arr xs => decodeFrameSeq xs
        | _ => none
      pure { metadata := m, frames := fs }
  | _ => none

/-- The observable state of a `DMXRecorder` (threads, file paths and the
callback closure are I/O resources; `artnet_source` is modelled by the
universe list of the assigned source, `none` when no source is set, and
`has_callback` records whether a playback callback was supplied). -/
structure State where
  artnet_source : Option (List ℕ)
  frame_rate : ℕ
  recording : Bool
  playing : Bool
  current_recording : Option Recording
  current_playback : Option Recording
  playback_universes : List ℕ
  playback_position : ℕ
  frame_count : ℕ
  start_time : ℚ
  loop_playback : Bool
  has_callback : Bool
deriving Repr, DecidableEq

/-- `DMXRecorder.start_recording`, given the wall-clock sample it takes and
the filename timestamp it formats. Returns the new state and the boolean
result. -/
def startRecording (st : State) (now : ℚ) (timestamp : String) : State × Bool :=
  if st.recording then (st, false)
  else
    match st.artnet_source with
    | none => (st, false)
    | some universes =>
        let meta : RecMetadata :=
          { timestamp := timestamp, frame_rate := st.frame_rate,
            universes := universes, frame_count := none, duration := none }
        ({ st with recording := true, frame_count := 0, start_time := now,
                   current_recording := some { metadata := meta, frames := [] } },
         true)

/-- The metadata finalization `stop_recording` performs before saving:
`frame_count` and `duration` are filled in. -/
def finalizeRecording (r : Recording) (dur : ℚ) : Recording :=
  { r with metadata :=
      { r.metadata with frame_count := some r.frames.length,
                        duration := some dur } }

/-- `DMXRecorder.stop_recording`, given the wall-clock sample used for the
`duration` metadata. Returns the new state, and the finalized recording that
was written to disk (`none` models the `False` return: not recording, or no
frames captured). -/
def stopRecording (st : State) (now : ℚ) : State × Option Recording :=
  if !st.recording then (st, none)
  else
    let st := { st with recording := false }
    match st.current_recording with
    | some r =>
        if 0 < r.frames.length then
          let fin : Recording := finalizeRecording r (now - st.start_time)
          ({ st with current_recording := some fin }, some fin)
        else (st, none)
    | none => (st, none)

/-- `DMXRecorder.load_recording` on already-parsed JSON (`json.load` plus the
key check and field reads; any failure inside the `try` returns `False`). -/
def loadRecording (st : State) (j : Json) : State × Bool :=
  match decodeRecording j with
  | none => (st, false)
  | some r =>
      ({ st with current_playback := some r,
                 playback_universes := r.metadata.universes,
                 playback_position := 0 }, true)

/-- `DMXRecorder.start_playback`, with the wall-clock sample it takes.
`callback` records whether a callback function was passed. -/
def startPlayback (st : State) (now : ℚ) (callback : Bool) (loop : Bool) :
    State × Bool :=
  if st.playing then (st, false)
  else if st.current_playback = none then (st, false)
  else
    ({ st with playing := true, has_callback := callback,
               loop_playback := loop, start_time := now }, true)

/-- `DMXRecorder.stop_playback`. -/
def stopPlayback (st : State) : State × Bool :=
  if !st.playing then (st, false)
  else ({ st with playing := false }, true)

/-- The loop-local state of `_record_thread`: `last_frame_time`, the
recorder's `frame_count`, and the `frames` list of `current_recording`. -/
structure RecordLoop where
  last_frame_time : ℚ
  frame_count : ℕ
  frames : List RecFrame
deriving Repr, DecidableEq

/-- One iteration of `_record_thread` at wall-clock sample `current_time`:
when at least `frame_interval` has elapsed since the last captured frame, a
frame is appended with `timecode = int((current_time - start_time) * 1000)`
and `frame = frame_count`, and `frame_count` is incremented. `frameData`
models the snapshot of the source's buffers taken at that time. -/
def recordIter (frame_interval start_time : ℚ)
    (frameData : ℚ → List (String × List ℕ))
    (st : RecordLoop) (current_time : ℚ) : RecordLoop :=
  if frame_interval ≤ current_time - st.last_frame_time then
    { last_frame_time := current_time
      frame_count := st.frame_count + 1
      frames := st.frames ++
        [{ timecode := pyTrunc ((current_time - start_time) * 1000)
           frame := st.frame_count
           data := frameData current_time }] }
  else st

/-- `_record_thread` run over the list of wall-clock samples its iterations
observe (the thread samples `last_frame_time = time.time()` once before the
loop; that sample is the initial state's `last_frame_time`). -/
def recordRun (frame_interval start_time : ℚ)
    (frameData : ℚ → List (String × List ℕ))
    (st : RecordLoop) (ts : List ℚ) : RecordLoop :=
  ts.foldl (recordIter frame_interval start_time frameData) st

end DMXRecorder

namespace ArtNetPlaybackSource

/-- The observable state of an `ArtNetPlaybackSource`, including the
`DMXRecorder` it drives. -/
structure State where
  universes : List ℕ
  buffers : List (ℕ × List ℕ)
  running : Bool
  fps : ℕ
  recorder : DMXRecorder.State
deriving Repr, DecidableEq

/-- `ArtNetPlaybackSource.stop`: when running, clears the running flag and
stops the recorder's playback. -/
def stop (st : State) : State :=
  if st.running then
    { st with running := false, recorder := (DMXRecorder.stopPlayback st.recorder).1 }
  else st

/-- `ArtNetPlaybackSource.start`, with the wall-clock sample
`start_playback` would take: returns `False` if no recording is loaded;
otherwise stops first if already running, adopts the recorder's
`playback_universes`, zero-fills buffers for universes that lack one, and
starts the recorder's playback (with the buffer-update callback) only if it
is not already playing. -/
def start (st : State) (now : ℚ) : State × Bool :=
  if st.recorder.current_playback = none then (st, false)
  else
    let st₁ := if st.running then stop st else st
    let st₂ := { st₁ with universes := st₁.recorder.playback_universes, running := true }
    let st₃ := { st₂ with buffers := addMissingZeros st₂.buffers st₂.universes }
    let st₄ :=
      if st₃.recorder.playing then st₃
      else { st₃ with recorder := (DMXRecorder.startPlayback st₃.recorder now true false).1 }
    (st₄, true)

/-- `ArtNetPlaybackSource.get_buffer`. -/
def getBuffer (st : State) (univ : ℕ) : List ℕ :=
  (st.buffers.lookup univ).getD zeros512

/-- `ArtNetPlaybackSource.set_universes` (same body as the listener's). -/
def setUniverses (st : State) (universes : List ℕ) : State × Bool :=
  let r := setUniversesCore st.universes st.buffers universes
  ({ st with universes := r.1, buffers := r.2.1 }, r.2.2)

end ArtNetPlaybackSource

/-! Concrete fixtures used to evaluate the definitions on specific inputs. -/

/-- A valid Art-Net DMX datagram for universe 0: header, opcode `0x5000`
little-endian, protocol version, sequence, physical, universe 0, declared
length 2 (big-endian), and a 2-byte payload `[7, 9]`. 20 bytes total. -/
def pktPayload2 : List ℕ :=
  [65, 114, 116, 45, 78, 101, 116, 0, 0, 80, 0, 14, 0, 0, 0, 0, 0, 2, 7, 9]

/-- Like `pktPayload2` but declaring a payload length of 600 bytes
(`data[16:18] = [2, 88]`) while carrying only 2 payload bytes. -/
def pktOverLength : List ℕ :=
  [65, 114, 116, 45, 78, 101, 116, 0, 0, 80, 0, 14, 0, 0, 0, 0, 2, 88, 7, 9]

/-- A minimal recording with no frames (as freshly created). -/
def recEmpty : DMXRecorder.Recording :=
  { metadata := { timestamp := "20250101_120000", frame_rate := 44,
                  universes := [0], frame_count := none, duration := none }
    frames := [] }

/-- A recording with one captured frame. -/
def recOneFrame : DMXRecorder.Recording :=
  { metadata := { timestamp := "20250101_120000", frame_rate := 44,
                  universes := [0], frame_count := none, duration := none }
    frames := [{ timecode := 25, frame := 0, data := [("0", [7, 9])] }] }

/-- A recorder with a recording loaded for playback and nothing running. -/
def recStateLoaded : DMXRecorder.State :=
  { artnet_source := none, frame_rate := 44, recording := false,
    playing := false, current_recording := none,
    current_playback := some recEmpty, playback_universes := [0],
    playback_position := 0, frame_count := 0, start_time := 0,
    loop_playback := false, has_callback := false }

/-- A recorder with no source, nothing loaded, nothing running. -/
def recStateIdle : DMXRecorder.State :=
  { artnet_source := none, frame_rate := 44, recording := false,
    playing := false, current_recording := none, current_playback := none,
    playback_universes := [], playback_position := 0, frame_count := 0,
    start_time := 0, loop_playback := false, has_callback := false }

/-- A recorder that is both recording and playing, with a source assigned
and a recording loaded. -/
def recStateBusy : DMXRecorder.State :=
  { artnet_source := some [0], frame_rate := 44, recording := true,
    playing := true, current_recording := some recOneFrame,
    current_playback := some recEmpty, playback_universes := [0],
    playback_position := 0, frame_count := 1, start_time := 0,
    loop_playback := false, has_callback := true }

/-- A running playback source whose universe list (set via `set_universes`
after it started) differs from the loaded recording's `[0]`. -/
def pbRunning : ArtNetPlaybackSource.State :=
  { universes := [5], buffers := [(5, zeros512)], running := true,
    fps := 44, recorder := recStateLoaded }

/-- A stopped playback source with a recording loaded. -/
def pbStopped : ArtNetPlaybackSource.State :=
  { universes := [], buffers := [], running := false,
    fps := 44, recorder := recStateLoaded }

/-- A stopped playback source whose recorder has no recording loaded. -/
def pbNoRecording : ArtNetPlaybackSource.State :=
  { universes := [], buffers := [], running := false,
    fps := 44, recorder := recStateIdle }

/-- A reachable playback-source state with a stale buffer entry: a recording
with universes `[5]` was played (its callback left a 2-byte buffer for 5),
then a recording with universes `[0]` was loaded and `start()` adopted `[0]`
without clearing old keys, so `5` remains in the buffer dict although it is
outside the current universe set. -/
def pbStale : ArtNetPlaybackSource.State :=
  { universes := [0], buffers := [(5, [7, 9]), (0, zeros512)], running := true,
    fps := 44, recorder := recStateLoaded }

/-- A running test source. -/
def tsRunning : ArtNetTestSource.State :=
  { universes := [0], buffers := [(0, zeros512)], running := true,
    frame_counter := 3, fps := 44, speed := 1 }

/-- A running listener monitoring universe 0. -/
def lsRunning : ArtNetListener.State :=
  { universes := [0], buffers := [(0, zeros512)], running := true }

/-! ## Supporting lemmas -/

theorem processPacket_buffers (st : ArtNetListener.State) (data : List ℕ)
    (hlen : 18 ≤ data.length)
    (hhdr : data.take 8 = ArtNetListener.ARTNET_HEADER)
    (hop : ArtNetListener.leWord data 8 = ArtNetListener.ARTNET_OPDMX)
    (huniv : ArtNetListener.leWord data 14 ∈ st.universes) :
    ArtNetListener.processPacket st data =
      { st with buffers := (dictSet st.buffers (ArtNetListener.leWord data 14)
          ((data.drop 18).take (ArtNetListener.beWord data 16))) } := by
  unfold ArtNetListener.processPacket
  rw [if_neg (by push_neg; exact ⟨by omega, hhdr⟩), if_neg (by simpa using hop),
    if_pos huniv]

theorem lookup_foldl_dictSet_preserve (us : List ℕ) (v : List ℕ) :
    ∀ (b : List (ℕ × List ℕ)) (u : ℕ), b.lookup u = some v →
      (us.foldl (fun b u => dictSet b u v) b).lookup u = some v := by
  induction us with
  | nil => intro b u h; exact h
  | cons x xs ih =>
    intro b u h
    simp only [List.foldl_cons]
    by_cases hx : u = x
    · subst hx
      exact ih _ u (lookup_dictSet_self b u v)
    · exact ih _ u ((lookup_dictSet_ne b x u v hx).trans h)

theorem lookup_foldl_dictSet_mem (us : List ℕ) (v : List ℕ) :
    ∀ (b : List (ℕ × List ℕ)) (u : ℕ), u ∈ us →
      (us.foldl (fun b u => dictSet b u v) b).lookup u = some v := by
  induction us with
  | nil => intro b u h; cases h
  | cons x xs ih =>
    intro b u h
    simp only [List.foldl_cons]
    rcases List.mem_cons.mp h with h | h
    · subst h
      exact lookup_foldl_dictSet_preserve xs v _ u (lookup_dictSet_self b u v)
    · exact ih _ u h

/-! ## Claim theorems -/

/-- C10: for every accepted DMX datagram, the stored buffer is exactly the
byte slice `data[18 : 18+declared_length]`; when the big-endian declared
length at bytes 16-17 exceeds the bytes present, the buffer silently becomes
only the available bytes, of length `min declared (len - 18)`, possibly
shorter than 512 or zero. The update is total (no exception). -/
theorem processPacket_slice_total (st : ArtNetListener.State) (data : List ℕ)
    (hlen : 18 ≤ data.length)
    (hhdr : data.take 8 = ArtNetListener.ARTNET_HEADER)
    (hop : ArtNetListener.leWord data 8 = ArtNetListener.ARTNET_OPDMX)
    (huniv : ArtNetListener.leWord data 14 ∈ st.universes) :
    ArtNetListener.getBuffer (ArtNetListener.processPacket st data)
        (ArtNetListener.leWord data 14)
      = (data.drop 18).take (ArtNetListener.beWord data 16) ∧
    (ArtNetListener.getBuffer (ArtNetListener.processPacket st data)
        (ArtNetListener.leWord data 14)).length
      = min (ArtNetListener.beWord data 16) (data.length - 18) := by
  rw [processPacket_buffers st data hlen hhdr hop huniv]
  unfold ArtNetListener.getBuffer
  simp only
  rw [lookup_dictSet_self]
  refine ⟨rfl, ?_⟩
  simp [List.length_take, List.length_drop]

theorem processPacket_slice_total_witness :
    (18 ≤ pktOverLength.length) ∧
    (pktOverLength.take 8 = ArtNetListener.ARTNET_HEADER) ∧
    (ArtNetListener.leWord pktOverLength 8 = ArtNetListener.ARTNET_OPDMX) ∧
    (ArtNetListener.leWord pktOverLength 14 ∈ lsRunning.universes) ∧
    (ArtNetListener.getBuffer (ArtNetListener.processPacket lsRunning pktOverLength)
        (ArtNetListener.leWord pktOverLength 14)
      = (pktOverLength.drop 18).take (ArtNetListener.beWord pktOverLength 16) ∧
     (ArtNetListener.getBuffer (ArtNetListener.processPacket lsRunning pktOverLength)
        (ArtNetListener.leWord pktOverLength 14)).length
      = min (ArtNetListener.beWord pktOverLength 16) (pktOverLength.length - 18)) :=
  ⟨by decide, by decide, by decide, by decide,
   processPacket_slice_total lsRunning pktOverLength
     (by decide) (by decide) (by decide) (by decide)⟩

/-- C1 counterexample: a valid DMX packet for universe 0 with declared length
2 and payload `[7, 9]` leaves `get_buffer(0)` equal to the 2-byte payload,
not the payload zero-padded to 512 bytes as the claim states. -/
theorem processPacket_no_padding_cex :
    ArtNetListener.getBuffer (ArtNetListener.processPacket lsRunning pktPayload2) 0
      ≠ [7, 9] ++ List.replicate 510 0 := by
  decide

/-- C1 (amended): for every received datagram that passes validation and
whose decoded universe is configured, `get_buffer(universe)` after processing
equals the packet's DMX payload exactly as received
(`data[18 : 18+declared_length]`), with no zero-padding: a payload shorter
than 512 leaves the buffer at that shorter length. -/
theorem processPacket_stores_payload_as_received (st : ArtNetListener.State)
    (data : List ℕ)
    (hlen : 18 ≤ data.length)
    (hhdr : data.take 8 = ArtNetListener.ARTNET_HEADER)
    (hop : ArtNetListener.leWord data 8 = ArtNetListener.ARTNET_OPDMX)
    (huniv : ArtNetListener.leWord data 14 ∈ st.universes) :
    ArtNetListener.getBuffer (ArtNetListener.processPacket st data)
        (ArtNetListener.leWord data 14)
      = (data.drop 18).take (ArtNetListener.beWord data 16) := by
  rw [processPacket_buffers st data hlen hhdr hop huniv]
  unfold ArtNetListener.getBuffer
  simp only
  rw [lookup_dictSet_self]
  rfl

theorem processPacket_stores_payload_as_received_witness :
    (18 ≤ pktPayload2.length) ∧
    (pktPayload2.take 8 = ArtNetListener.ARTNET_HEADER) ∧
    (ArtNetListener.leWord pktPayload2 8 = ArtNetListener.ARTNET_OPDMX) ∧
    (ArtNetListener.leWord pktPayload2 14 ∈ lsRunning.universes) ∧
    ArtNetListener.getBuffer (ArtNetListener.processPacket lsRunning pktPayload2)
        (ArtNetListener.leWord pktPayload2 14)
      = (pktPayload2.drop 18).take (ArtNetListener.beWord pktPayload2 16) :=
  ⟨by decide, by decide, by decide, by decide,
   processPacket_stores_payload_as_received lsRunning pktPayload2
     (by decide) (by decide) (by decide) (by decide)⟩

set_option maxRecDepth 10000 in
/-- C7 counterexample: at channel 2 the code's gradient value is
`int((2/511)*255) = 0`, while the spec's `round(2/511 × 255)` is 1, so the
generated buffer does not satisfy the claimed formula. -/
theorem gradient_not_round_cex :
    (ArtNetTestSource.getBuffer
        (ArtNetTestSource.generateHorizontalGradient tsRunning) 0).getD 2 0
      ≠ ArtNetTestSource.gradientValueSpec 2 := by
  decide

/-- C7 (amended): for the horizontal-gradient pattern, every generated frame
and every monitored universe has `buffer[i] = int((i/511)*255)`, i.e. the
floor `⌊i/511 × 255⌋` (truncation, not rounding); in particular
`buffer[0] = 0` and `buffer[511] = 255`, and the pattern is static: the
generated buffers depend only on the universe set, not on the frame counter,
speed or elapsed time. -/
theorem horizontal_gradient_floor_static (st : ArtNetTestSource.State) (u : ℕ)
    (hu : u ∈ st.universes) :
    ArtNetTestSource.getBuffer (ArtNetTestSource.generateHorizontalGradient st) u
      = ArtNetTestSource.gradientBuffer ∧
    (∀ i : Fin 512, ArtNetTestSource.gradientBuffer.getD i.val 0
      = i.val * 255 / 511) ∧
    (∀ i : Fin 512, ArtNetTestSource.gradientBuffer.getD i.val 0
      = ⌊((i.val : ℚ) / 511) * 255⌋₊) ∧
    ArtNetTestSource.gradientBuffer.getD 0 0 = 0 ∧
    ArtNetTestSource.gradientBuffer.getD 511 0 = 255 ∧
    (∀ st' : ArtNetTestSource.State, st'.universes = st.universes →
      st'.buffers = st.buffers →
      (ArtNetTestSource.generateHorizontalGradient st').buffers
        = (ArtNetTestSource.generateHorizontalGradient st).buffers) := by
  have hval : ∀ i : Fin 512,
      ArtNetTestSource.gradientBuffer.getD i.val 0 = i.val * 255 / 511 := by
    intro i
    simp [ArtNetTestSource.gradientBuffer, ArtNetTestSource.gradientValue,
      List.getD_eq_getElem?_getD, List.getElem?_map, List.getElem?_range i.isLt]
  refine ⟨?_, hval, ?_, ?_, ?_, ?_⟩
  · have hb : (ArtNetTestSource.generateHorizontalGradient st).buffers.lookup u
        = some ArtNetTestSource.gradientBuffer :=
      lookup_foldl_dictSet_mem st.universes _ st.buffers u hu
    unfold ArtNetTestSource.getBuffer
    rw [hb]
    exact Option.getD_some
  · intro i
    rw [hval i,
      show ((i.val : ℚ) / 511) * 255 = ((i.val * 255 : ℕ) : ℚ) / 511 by
        push_cast; ring,
      Nat.floor_div_ofNat, Nat.floor_natCast]
  · rw [hval ⟨0, by norm_num⟩]
    decide
  · rw [hval ⟨511, by norm_num⟩]
    decide
  · intro st' h1 h2
    unfold ArtNetTestSource.generateHorizontalGradient
    simp only [h1, h2]

theorem horizontal_gradient_floor_static_witness :
    (0 ∈ tsRunning.universes) ∧
    ArtNetTestSource.getBuffer
        (ArtNetTestSource.generateHorizontalGradient tsRunning) 0
      = ArtNetTestSource.gradientBuffer ∧
    ArtNetTestSource.gradientBuffer.getD 0 0 = 0 ∧
    ArtNetTestSource.gradientBuffer.getD 511 0 = 255 :=
  ⟨by decide, (horizontal_gradient_floor_static tsRunning 0 (by decide)).1,
   (horizontal_gradient_floor_static tsRunning 0 (by decide)).2.2.2.1,
   (horizontal_gradient_floor_static tsRunning 0 (by decide)).2.2.2.2.1⟩

/-- C6 counterexample: an iteration of `_pattern_thread` with previous target
`next_time = 0`, wall-clock sample `now = 1` and interval `1/44` sets the
next wake time to `1 + 1/44`, not to the previous target plus the interval
(`0 + 1/44`) as the claim states. -/
theorem pattern_timing_cex :
    (ArtNetTestSource.patternLoopIter (1/44) ⟨0, 0⟩ 1).next_time ≠ 0 + 1/44 := by
  simp only [ArtNetTestSource.patternLoopIter]
  norm_num

/-- C6 (amended): `_pattern_thread` computes the next wake time as the
wall-clock time sampled before sleeping plus the frame interval
(`next_time = now + interval`), not as the previous target plus the interval;
consequently after any run the target is the last sample plus the interval
(the schedule follows the clock and is subject to cumulative skew), and the
frame counter advances by one per iteration. -/
theorem pattern_timing_now_plus_interval (interval : ℚ)
    (st : ArtNetTestSource.LoopState) (nows : List ℚ) (t : ℚ) :
    (ArtNetTestSource.patternLoopIter interval st t).next_time = t + interval ∧
    (ArtNetTestSource.patternLoopRun interval st (nows ++ [t])).next_time
      = t + interval ∧
    (ArtNetTestSource.patternLoopRun interval st nows).frame_counter
      = st.frame_counter + nows.length := by
  refine ⟨rfl, ?_, ?_⟩
  · unfold ArtNetTestSource.patternLoopRun
    rw [List.foldl_append]
    rfl
  · induction nows generalizing st with
    | nil => simp [ArtNetTestSource.patternLoopRun]
    | cons x xs ih =>
      unfold ArtNetTestSource.patternLoopRun at ih ⊢
      simp only [List.foldl_cons, List.length_cons]
      rw [ih]
      simp only [ArtNetTestSource.patternLoopIter]
      omega

theorem lookup_addMissingZeros_preserve (us : List ℕ) :
    ∀ (b : List (ℕ × List ℕ)) (u : ℕ) (v : List ℕ), b.lookup u = some v →
      (addMissingZeros b us).lookup u = some v := by
  induction us with
  | nil => intro b u v h; exact h
  | cons x xs ih =>
    intro b u v h
    simp only [addMissingZeros, List.foldl_cons]
    by_cases hx : (b.lookup x).isSome
    · rw [if_pos hx]
      exact ih b u v h
    · rw [if_neg hx]
      exact ih _ u v (lookup_append_left b _ u v h)

theorem lookup_addMissingZeros_mem (us : List ℕ) :
    ∀ (b : List (ℕ × List ℕ)) (u : ℕ), u ∈ us →
      (addMissingZeros b us).lookup u = some ((b.lookup u).getD zeros512) := by
  induction us with
  | nil => intro b u h; cases h
  | cons x xs ih =>
    intro b u h
    simp only [addMissingZeros, List.foldl_cons]
    by_cases hx : u = x
    · subst hx
      cases hl : b.lookup u with
      | some v =>
        rw [if_pos (show (some v).isSome = true from rfl), Option.getD_some]
        exact lookup_addMissingZeros_preserve xs b u v hl
      | none =>
        rw [if_neg (by simp)]
        have hb' : (b ++ [(u, zeros512)]).lookup u = some zeros512 := by
          rw [lookup_append_right _ _ _ hl, lookup_cons_self]
        exact lookup_addMissingZeros_preserve xs _ u zeros512 hb'
    · have h' : u ∈ xs := by
        rcases List.mem_cons.mp h with h | h
        · exact absurd h hx
        · exact h
      cases hif : (b.lookup x).isSome with
      | true =>
        rw [if_pos (show true = true from rfl)]
        exact ih b u h'
      | false =>
        rw [if_neg (by simp)]
        have hco : (b ++ [(x, zeros512)]).lookup u = b.lookup u := by
          cases hl : b.lookup u with
          | some v => exact lookup_append_left _ _ _ _ hl
          | none =>
            rw [lookup_append_right _ _ _ hl, lookup_cons_ne _ _ _ _ hx]
            rfl
        rw [show ((b.lookup u).getD zeros512)
            = (((b ++ [(x, zeros512)]).lookup u).getD zeros512) by rw [hco]]
        exact ih _ u h'

theorem lookup_addMissingZeros_not_mem (us : List ℕ) :
    ∀ (b : List (ℕ × List ℕ)) (u : ℕ), u ∉ us → b.lookup u = none →
      (addMissingZeros b us).lookup u = none := by
  induction us with
  | nil => intro b u _ h; exact h
  | cons x xs ih =>
    intro b u hmem h
    have hx : u ≠ x := fun he => hmem (he ▸ List.mem_cons_self x xs)
    have hxs : u ∉ xs := fun he => hmem (List.mem_cons_of_mem x he)
    simp only [addMissingZeros, List.foldl_cons]
    by_cases hb : (b.lookup x).isSome
    · rw [if_pos hb]
      exact ih b u hxs h
    · rw [if_neg hb]
      refine ih _ u hxs ?_
      rw [lookup_append_right _ _ _ h, lookup_cons_ne _ _ _ _ hx]
      rfl

theorem playbackStart_fields (s : ArtNetPlaybackSource.State) (now : ℚ)
    (hs : ¬ s.recorder.current_playback = none) :
    (ArtNetPlaybackSource.start s now).2 = true ∧
    (ArtNetPlaybackSource.start s now).1.running = true ∧
    (ArtNetPlaybackSource.start s now).1.universes
      = s.recorder.playback_universes := by
  unfold ArtNetPlaybackSource.start
  rw [if_neg hs]
  by_cases hr : s.running <;>
    simp only [ArtNetPlaybackSource.stop, DMXRecorder.stopPlayback,
      DMXRecorder.startPlayback, hr, if_true, if_false, ite_true, ite_false] <;>
    split_ifs <;> simp_all

/-- C4 counterexample: a running Playback Source whose universe list was
changed to `[5]` after it started (the loaded recording's list is `[0]`):
calling `start()` again is not a no-op — it re-adopts the recording's
universe list, so the universe set changes. -/
theorem playback_start_not_noop_cex :
    (ArtNetPlaybackSource.start pbRunning 0).1.universes ≠ pbRunning.universes := by
  decide

/-- C4 (amended): `start()` is an idempotent no-op when already running for
the Protocol Listener and the Pattern Generator; the Playback Source's
`start()` instead stops and restarts when already running, re-adopting the
loaded recording's universe list (so it is not a no-op in general). -/
theorem start_idempotent_amended (st₁ : ArtNetListener.State)
    (st₂ : ArtNetTestSource.State) (st₃ : ArtNetPlaybackSource.State) (now : ℚ)
    (h₁ : st₁.running = true) (h₂ : st₂.running = true)
    (h₃ : ¬ st₃.recorder.current_playback = none) :
    ArtNetListener.start st₁ = st₁ ∧
    ArtNetTestSource.start st₂ = st₂ ∧
    (ArtNetPlaybackSource.start st₃ now).1.universes
      = st₃.recorder.playback_universes ∧
    (ArtNetPlaybackSource.start st₃ now).1.running = true :=
  ⟨by simp [ArtNetListener.start, h₁], by simp [ArtNetTestSource.start, h₂],
   (playbackStart_fields st₃ now h₃).2.2, (playbackStart_fields st₃ now h₃).2.1⟩

theorem start_idempotent_amended_witness :
    lsRunning.running = true ∧ tsRunning.running = true ∧
    (¬ pbRunning.recorder.current_playback = none) ∧
    (ArtNetListener.start lsRunning = lsRunning ∧
     ArtNetTestSource.start tsRunning = tsRunning ∧
     (ArtNetPlaybackSource.start pbRunning 0).1.universes
       = pbRunning.recorder.playback_universes ∧
     (ArtNetPlaybackSource.start pbRunning 0).1.running = true) :=
  ⟨by decide, by decide, by decide,
   start_idempotent_amended lsRunning tsRunning pbRunning 0
     (by decide) (by decide) (by decide)⟩

/-- C5 counterexample: with no recording loaded, `start()` on the Playback
Source returns `False` and the source does not transition to the running
state, contrary to the claim that it falls back to its existing universe
list and still starts. -/
theorem playback_start_no_recording_cex :
    ArtNetPlaybackSource.start pbNoRecording 0 = (pbNoRecording, false) ∧
    (ArtNetPlaybackSource.start pbNoRecording 0).1.running = false := by
  constructor <;> decide

/-- C5 (amended): on `start()` of a stopped Playback Source: if no recording
is loaded it returns `False` and stays stopped; if one is loaded it adopts
the recorder's playback universe list and transitions to running, every
universe in that list gets a Channel Buffer (the prior one if present,
otherwise zero-filled 512 bytes), and the underlying playback is started
(with the buffer-updating callback) only if the Recorder is not already
playing. -/
theorem playback_start_characterization (st : ArtNetPlaybackSource.State)
    (now : ℚ) (hrun : st.running = false) :
    (st.recorder.current_playback = none →
      ArtNetPlaybackSource.start st now = (st, false)) ∧
    (¬ st.recorder.current_playback = none →
      ((ArtNetPlaybackSource.start st now).2 = true ∧
       (ArtNetPlaybackSource.start st now).1.running = true ∧
       (ArtNetPlaybackSource.start st now).1.universes
         = st.recorder.playback_universes ∧
       (∀ u ∈ st.recorder.playback_universes,
         (ArtNetPlaybackSource.start st now).1.buffers.lookup u
           = some ((st.buffers.lookup u).getD zeros512)) ∧
       (st.recorder.playing = true →
         (ArtNetPlaybackSource.start st now).1.recorder = st.recorder) ∧
       (st.recorder.playing = false →
         (ArtNetPlaybackSource.start st now).1.recorder
           = (DMXRecorder.startPlayback st.recorder now true false).1))) := by
  constructor
  · intro h
    unfold ArtNetPlaybackSource.start
    rw [if_pos h]
  · intro h
    refine ⟨(playbackStart_fields st now h).1, (playbackStart_fields st now h).2.1,
      (playbackStart_fields st now h).2.2, ?_, ?_, ?_⟩
    · intro u hu
      unfold ArtNetPlaybackSource.start
      rw [if_neg h]
      simp only [hrun, Bool.false_eq_true, if_false]
      split_ifs <;> exact lookup_addMissingZeros_mem _ _ u hu
    · intro hp
      unfold ArtNetPlaybackSource.start
      rw [if_neg h]
      simp [hrun, hp]
    · intro hp
      unfold ArtNetPlaybackSource.start
      rw [if_neg h]
      simp [hrun, hp]

theorem playback_start_characterization_witness :
    pbStopped.running = false ∧
    (¬ pbStopped.recorder.current_playback = none) ∧
    ((ArtNetPlaybackSource.start pbStopped 0).2 = true ∧
     (ArtNetPlaybackSource.start pbStopped 0).1.universes
       = pbStopped.recorder.playback_universes) :=
  ⟨by decide, by decide,
   ((playback_start_characterization pbStopped 0 (by decide)).2 (by decide)).1,
   ((playback_start_characterization pbStopped 0 (by decide)).2 (by decide)).2.2.1⟩

/-- C8: invalid operation sequencing on the Recorder is reported as a
boolean failure result (never an exception, as each guard returns before any
effect) and leaves the recorder's state unchanged: `start_recording` fails
when already recording or when no source is assigned; `start_playback` fails
when already playing or when no recording is loaded; `stop_recording` fails
when not recording; `stop_playback` fails when not playing. -/
theorem recorder_invalid_sequencing (st : DMXRecorder.State) (now : ℚ)
    (ts : String) (cb lp : Bool) :
    (st.recording = true →
      DMXRecorder.startRecording st now ts = (st, false)) ∧
    (st.artnet_source = none →
      DMXRecorder.startRecording st now ts = (st, false)) ∧
    (st.playing = true →
      DMXRecorder.startPlayback st now cb lp = (st, false)) ∧
    (st.current_playback = none →
      DMXRecorder.startPlayback st now cb lp = (st, false)) ∧
    (st.recording = false →
      DMXRecorder.stopRecording st now = (st, none)) ∧
    (st.playing = false →
      DMXRecorder.stopPlayback st = (st, false)) := by
  refine ⟨?_, ?_, ?_, ?_, ?_, ?_⟩
  · intro h
    simp [DMXRecorder.startRecording, h]
  · intro h
    by_cases hr : st.recording <;> simp [DMXRecorder.startRecording, h, hr]
  · intro h
    simp [DMXRecorder.startPlayback, h]
  · intro h
    by_cases hp : st.playing <;> simp [DMXRecorder.startPlayback, h, hp]
  · intro h
    simp [DMXRecorder.stopRecording, h]
  · intro h
    simp [DMXRecorder.stopPlayback, h]

theorem recorder_invalid_sequencing_witness :
    (recStateBusy.recording = true ∧
     DMXRecorder.startRecording recStateBusy 0 "t" = (recStateBusy, false)) ∧
    (recStateIdle.artnet_source = none ∧
     DMXRecorder.startRecording recStateIdle 0 "t" = (recStateIdle, false)) ∧
    (recStateBusy.playing = true ∧
     DMXRecorder.startPlayback recStateBusy 0 true false = (recStateBusy, false)) ∧
    (recStateIdle.current_playback = none ∧
     DMXRecorder.startPlayback recStateIdle 0 true false = (recStateIdle, false)) ∧
    (recStateIdle.recording = false ∧
     DMXRecorder.stopRecording recStateIdle 0 = (recStateIdle, none)) ∧
    (recStateIdle.playing = false ∧
     DMXRecorder.stopPlayback recStateIdle = (recStateIdle, false)) :=
  ⟨⟨by decide, (recorder_invalid_sequencing recStateBusy 0 "t" true false).1
      (by decide)⟩,
   ⟨by decide, (recorder_invalid_sequencing recStateIdle 0 "t" true false).2.1
      (by decide)⟩,
   ⟨by decide, (recorder_invalid_sequencing recStateBusy 0 "t" true false).2.2.1
      (by decide)⟩,
   ⟨by decide, (recorder_invalid_sequencing recStateIdle 0 "t" true false).2.2.2.1
      (by decide)⟩,
   ⟨by decide, (recorder_invalid_sequencing recStateIdle 0 "t" true false).2.2.2.2.1
      (by decide)⟩,
   ⟨by decide, (recorder_invalid_sequencing recStateIdle 0 "t" true false).2.2.2.2.2
      (by decide)⟩⟩

theorem pysorted_sorted (l : List ℕ) : List.Sorted (· ≤ ·) (pysorted l) :=
  List.sorted_insertionSort _ l

theorem pysorted_perm (l : List ℕ) : List.Perm (pysorted l) l :=
  List.perm_insertionSort _ l

theorem lookup_isSome_iff_mem_keys (d : List (ℕ × List ℕ)) (u : ℕ) :
    ((d.lookup u).isSome = true) ↔ u ∈ d.map Prod.fst := by
  induction d with
  | nil => simp [List.lookup]
  | cons p d ih =>
    obtain ⟨a, b⟩ := p
    by_cases hu : u = a
    · subst hu
      simp [lookup_cons_self]
    · rw [lookup_cons_ne _ _ _ _ hu]
      simp [hu, ih]

theorem lookup_filter_of_mem (d : List (ℕ × List ℕ)) (us : List ℕ) (u : ℕ)
    (h : u ∈ us) :
    (d.filter (fun p => p.1 ∈ us)).lookup u = d.lookup u := by
  induction d with
  | nil => simp
  | cons p d ih =>
    obtain ⟨a, b⟩ := p
    by_cases hu : u = a
    · subst hu
      rw [List.filter_cons, if_pos (by simpa using h)]
      rw [lookup_cons_self, lookup_cons_self]
    · rw [List.filter_cons]
      by_cases ha : a ∈ us
      · rw [if_pos (by simpa using ha), lookup_cons_ne _ _ _ _ hu,
          lookup_cons_ne _ _ _ _ hu]
        exact ih
      · rw [if_neg (by simpa using ha), lookup_cons_ne _ _ _ _ hu]
        exact ih

theorem lookup_filter_of_not_mem (d : List (ℕ × List ℕ)) (us : List ℕ) (u : ℕ)
    (h : u ∉ us) :
    (d.filter (fun p => p.1 ∈ us)).lookup u = none := by
  induction d with
  | nil => simp
  | cons p d ih =>
    obtain ⟨a, b⟩ := p
    rw [List.filter_cons]
    by_cases ha : a ∈ us
    · have hu : u ≠ a := fun he => h (he ▸ ha)
      rw [if_pos (by simpa using ha), lookup_cons_ne _ _ _ _ hu]
      exact ih
    · rw [if_neg (by simpa using ha)]
      exact ih

theorem setUniversesCore_spec (oldU : List ℕ) (oldB : List (ℕ × List ℕ))
    (input : List ℕ) (hinv : oldB.map Prod.fst = oldU) :
    (setUniversesCore oldU oldB input).1 = normUniverses input ∧
    ((setUniversesCore oldU oldB input).2.2 = true ↔
        ¬ oldU = normUniverses input) ∧
    (∀ u, u ∉ (setUniversesCore oldU oldB input).1 →
        (setUniversesCore oldU oldB input).2.1.lookup u = none) ∧
    (∀ u, u ∈ (setUniversesCore oldU oldB input).1 →
        (setUniversesCore oldU oldB input).2.1.lookup u
          = some ((oldB.lookup u).getD zeros512)) := by
  have hiff : ∀ u : ℕ, ((oldB.lookup u).isSome = true ↔ u ∈ oldU) := by
    intro u
    rw [lookup_isSome_iff_mem_keys, hinv]
  unfold setUniversesCore
  by_cases he : oldU = normUniverses input
  · rw [if_pos he]
    refine ⟨he, by simp [he], fun u hu => ?_, fun u hu => ?_⟩
    · have hu' : u ∉ oldU := hu
      show oldB.lookup u = none
      have h2 : ¬ (oldB.lookup u).isSome = true := by
        rw [hiff u]
        exact hu'
      exact Option.not_isSome_iff_eq_none.mp h2
    · have hu' : u ∈ oldU := hu
      show oldB.lookup u = some ((oldB.lookup u).getD zeros512)
      have h2 : (oldB.lookup u).isSome = true := (hiff u).mpr hu'
      rcases Option.isSome_iff_exists.mp h2 with ⟨v, hv⟩
      rw [hv]
      rfl
  · rw [if_neg he]
    refine ⟨rfl, by simp [he], fun u hu => ?_, fun u hu => ?_⟩
    · have hu' : u ∉ normUniverses input := hu
      show (addMissingZeros
        (oldB.filter (fun p => p.1 ∈ normUniverses input))
        (normUniverses input)).lookup u = none
      exact lookup_addMissingZeros_not_mem _ _ u hu'
        (lookup_filter_of_not_mem oldB _ u hu')
    · have hu' : u ∈ normUniverses input := hu
      show (addMissingZeros
        (oldB.filter (fun p => p.1 ∈ normUniverses input))
        (normUniverses input)).lookup u
          = some ((oldB.lookup u).getD zeros512)
      rw [lookup_addMissingZeros_mem _ _ u hu',
        lookup_filter_of_mem oldB _ u hu']

theorem setUniversesCore_spec_weak (oldU : List ℕ) (oldB : List (ℕ × List ℕ))
    (input : List ℕ)
    (hsome : ∀ u ∈ oldU, (oldB.lookup u).isSome = true) :
    (setUniversesCore oldU oldB input).1 = normUniverses input ∧
    ((setUniversesCore oldU oldB input).2.2 = true ↔
        ¬ oldU = normUniverses input) ∧
    (∀ u, u ∈ oldU → u ∉ (setUniversesCore oldU oldB input).1 →
        (setUniversesCore oldU oldB input).2.1.lookup u = none) ∧
    (∀ u, u ∈ (setUniversesCore oldU oldB input).1 →
        (setUniversesCore oldU oldB input).2.1.lookup u
          = some ((oldB.lookup u).getD zeros512)) := by
  unfold setUniversesCore
  by_cases he : oldU = normUniverses input
  · rw [if_pos he]
    refine ⟨he, by simp [he], fun u hmem hu => ?_, fun u hu => ?_⟩
    · have hu' : u ∉ oldU := hu
      exact absurd hmem hu'
    · have hu' : u ∈ oldU := hu
      show oldB.lookup u = some ((oldB.lookup u).getD zeros512)
      rcases Option.isSome_iff_exists.mp (hsome u hu') with ⟨v, hv⟩
      rw [hv]
      rfl
  · rw [if_neg he]
    refine ⟨rfl, by simp [he], fun u _ hu => ?_, fun u hu => ?_⟩
    · have hu' : u ∉ normUniverses input := hu
      show (addMissingZeros
        (oldB.filter (fun p => p.1 ∈ normUniverses input))
        (normUniverses input)).lookup u = none
      exact lookup_addMissingZeros_not_mem _ _ u hu'
        (lookup_filter_of_not_mem oldB _ u hu')
    · have hu' : u ∈ normUniverses input := hu
      show (addMissingZeros
        (oldB.filter (fun p => p.1 ∈ normUniverses input))
        (normUniverses input)).lookup u
          = some ((oldB.lookup u).getD zeros512)
      rw [lookup_addMissingZeros_mem _ _ u hu',
        lookup_filter_of_mem oldB _ u hu']

/-- C2 counterexample: on a reachable Playback Source state (`pbStale`)
whose buffer dict still holds a stale entry for universe 5 left behind by an
earlier `start()`, `set_universes([0, 5])` adds 5 to the universe set but
keeps the stale 2-byte buffer `[7, 9]` instead of creating a zero-filled
512-byte one, refuting the claim that buffers for newly added universes are
created zero-filled. -/
theorem set_universes_stale_buffer_cex :
    5 ∉ pbStale.universes ∧
    5 ∈ (ArtNetPlaybackSource.setUniverses pbStale [0, 5]).1.universes ∧
    (ArtNetPlaybackSource.setUniverses pbStale [0, 5]).1.buffers.lookup 5
      = some [7, 9] ∧
    (ArtNetPlaybackSource.setUniverses pbStale [0, 5]).1.buffers.lookup 5
      ≠ some zeros512 := by
  decide

/-- C2 (amended): for both Frame Sources that implement `set_universes`:
an empty input normalizes the universe set to `[0]`; a non-empty input makes
the new set the sorted input; buffers for universes removed from the set are
deleted; buffers of retained universes keep their exact prior contents; and
the call returns `True` iff the resulting sorted set differs from the
previous one. For the Protocol Listener — whose buffer-dict keys always
equal its universe list — a newly added universe always gets a zero-filled
buffer (512 zeros). For the Playback Source, whose `start()` can leave stale
buffer entries for universes outside the current set, a universe added to
the set gets a zero-filled buffer only when no dict entry for it exists;
a stale entry, when present, is kept as the universe's buffer. -/
theorem set_universes_amended (stL : ArtNetListener.State)
    (stP : ArtNetPlaybackSource.State) (input : List ℕ)
    (hL : stL.buffers.map Prod.fst = stL.universes)
    (hP : ∀ u ∈ stP.universes, (stP.buffers.lookup u).isSome = true) :
    ((ArtNetListener.setUniverses stL input).1.universes
        = normUniverses input ∧
     (input = [] →
       (ArtNetListener.setUniverses stL input).1.universes = [0]) ∧
     (input ≠ [] →
       List.Perm (ArtNetListener.setUniverses stL input).1.universes input) ∧
     List.Sorted (· ≤ ·) (ArtNetListener.setUniverses stL input).1.universes ∧
     ((ArtNetListener.setUniverses stL input).2 = true ↔
       ¬ stL.universes = (ArtNetListener.setUniverses stL input).1.universes) ∧
     (∀ u, u ∉ (ArtNetListener.setUniverses stL input).1.universes →
       (ArtNetListener.setUniverses stL input).1.buffers.lookup u = none) ∧
     (∀ u, u ∈ (ArtNetListener.setUniverses stL input).1.universes →
       (ArtNetListener.setUniverses stL input).1.buffers.lookup u
         = some ((stL.buffers.lookup u).getD zeros512))) ∧
    ((ArtNetPlaybackSource.setUniverses stP input).1.universes
        = normUniverses input ∧
     (input = [] →
       (ArtNetPlaybackSource.setUniverses stP input).1.universes = [0]) ∧
     (input ≠ [] →
       List.Perm (ArtNetPlaybackSource.setUniverses stP input).1.universes
         input) ∧
     List.Sorted (· ≤ ·)
       (ArtNetPlaybackSource.setUniverses stP input).1.universes ∧
     ((ArtNetPlaybackSource.setUniverses stP input).2 = true ↔
       ¬ stP.universes
           = (ArtNetPlaybackSource.setUniverses stP input).1.universes) ∧
     (∀ u, u ∈ stP.universes →
       u ∉ (ArtNetPlaybackSource.setUniverses stP input).1.universes →
       (ArtNetPlaybackSource.setUniverses stP input).1.buffers.lookup u
         = none) ∧
     (∀ u, u ∈ (ArtNetPlaybackSource.setUniverses stP input).1.universes →
       (ArtNetPlaybackSource.setUniverses stP input).1.buffers.lookup u
         = some ((stP.buffers.lookup u).getD zeros512))) := by
  obtain ⟨e1, e2, e3, e4⟩ :=
    setUniversesCore_spec stL.universes stL.buffers input hL
  obtain ⟨f1, f2, f3, f4⟩ :=
    setUniversesCore_spec_weak stP.universes stP.buffers input hP
  constructor
  · refine ⟨e1, ?_, ?_, ?_, ?_, e3, e4⟩
    · intro h
      rw [show (ArtNetListener.setUniverses stL input).1.universes
          = normUniverses input from e1, h]
      decide
    · intro h
      rw [show (ArtNetListener.setUniverses stL input).1.universes
          = normUniverses input from e1, normUniverses, if_neg h]
      exact pysorted_perm input
    · rw [show (ArtNetListener.setUniverses stL input).1.universes
          = normUniverses input from e1]
      exact pysorted_sorted _
    · rw [show (ArtNetListener.setUniverses stL input).1.universes
          = normUniverses input from e1]
      exact e2
  · refine ⟨f1, ?_, ?_, ?_, ?_, f3, f4⟩
    · intro h
      rw [show (ArtNetPlaybackSource.setUniverses stP input).1.universes
          = normUniverses input from f1, h]
      decide
    · intro h
      rw [show (ArtNetPlaybackSource.setUniverses stP input).1.universes
          = normUniverses input from f1, normUniverses, if_neg h]
      exact pysorted_perm input
    · rw [show (ArtNetPlaybackSource.setUniverses stP input).1.universes
          = normUniverses input from f1]
      exact pysorted_sorted _
    · rw [show (ArtNetPlaybackSource.setUniverses stP input).1.universes
          = normUniverses input from f1]
      exact f2

theorem set_universes_amended_witness :
    lsRunning.buffers.map Prod.fst = lsRunning.universes ∧
    (∀ u ∈ pbStale.universes, (pbStale.buffers.lookup u).isSome = true) ∧
    (ArtNetListener.setUniverses lsRunning [2, 1]).1.buffers.lookup 1
      = some ((lsRunning.buffers.lookup 1).getD zeros512) ∧
    (ArtNetPlaybackSource.setUniverses pbStale [0, 5]).1.buffers.lookup 5
      = some ((pbStale.buffers.lookup 5).getD zeros512) :=
  ⟨by decide, by decide,
   (set_universes_amended lsRunning pbStale [2, 1]
     (by decide) (by decide)).1.2.2.2.2.2.2 1 (by decide),
   (set_universes_amended lsRunning pbStale [0, 5]
     (by decide) (by decide)).2.2.2.2.2.2.2 5 (by decide)⟩

theorem decodeNat_encode (n : ℕ) :
    DMXRecorder.decodeNat (Json.int (n : ℤ)) = some n := by
  simp [DMXRecorder.decodeNat, Int.natCast_nonneg, Int.toNat_natCast]

theorem decodeNatSeq_encode (l : List ℕ) :
    DMXRecorder.decodeNatSeq (l.map (fun u : ℕ => Json.int (u : ℤ))) = some l := by
  induction l with
  | nil => rfl
  | cons x xs ih =>
    rw [List.map_cons]
    simp only [DMXRecorder.decodeNatSeq, decodeNat_encode, ih]
    rfl

theorem decodeNatList_encode (l : List ℕ) :
    DMXRecorder.decodeNatList
      (Json.arr (l.map (fun u : ℕ => Json.int (u : ℤ)))) = some l := by
  simp only [DMXRecorder.decodeNatList, decodeNatSeq_encode]

theorem decodeDataEntries_encode (data : List (String × List ℕ)) :
    DMXRecorder.decodeDataEntries (data.map
      (fun p => (p.1, Json.arr (p.2.map (fun b : ℕ => Json.int (b : ℤ))))))
      = some data := by
  induction data with
  | nil => rfl
  | cons q qs ih =>
    rw [List.map_cons]
    simp only [DMXRecorder.decodeDataEntries, decodeNatList_encode, ih]
    rfl

theorem decodeFrame_encode (f : DMXRecorder.RecFrame) :
    DMXRecorder.decodeFrame (DMXRecorder.encodeFrame f) = some f := by
  obtain ⟨tc, fr, data⟩ := f
  simp [DMXRecorder.decodeFrame, DMXRecorder.encodeFrame, List.lookup,
    decodeNat_encode, decodeDataEntries_encode]

theorem decodeMetadata_encode (m : DMXRecorder.RecMetadata) :
    DMXRecorder.decodeMetadata (DMXRecorder.encodeMetadata m) = some m := by
  obtain ⟨ts, fr, us, fc, du⟩ := m
  cases fc <;> cases du <;>
    simp [DMXRecorder.decodeMetadata, DMXRecorder.encodeMetadata, List.lookup,
      decodeNat_encode, decodeNatList_encode]

theorem decodeFrameSeq_encode (fs : List DMXRecorder.RecFrame) :
    DMXRecorder.decodeFrameSeq (fs.map DMXRecorder.encodeFrame) = some fs := by
  induction fs with
  | nil => rfl
  | cons f fs ih =>
    rw [List.map_cons]
    simp only [DMXRecorder.decodeFrameSeq, decodeFrame_encode, ih]
    rfl

theorem decodeRecording_encode (r : DMXRecorder.Recording) :
    DMXRecorder.decodeRecording (DMXRecorder.encodeRecording r) = some r := by
  obtain ⟨m, fs⟩ := r
  simp [DMXRecorder.decodeRecording, DMXRecorder.encodeRecording, List.lookup,
    decodeMetadata_encode, decodeFrameSeq_encode]

/-- C3: for every in-memory recording persisted by `stop_recording` (i.e.
while recording, with at least one captured frame), the finalized recording
is what is written to disk, and parsing the just-written JSON succeeds and
reproduces a recording with identical metadata and frames: deserialization
inverts serialization, and `load_recording` installs exactly that recording
for playback. -/
theorem recording_roundtrip (st : DMXRecorder.State) (now : ℚ)
    (st₂ : DMXRecorder.State) (r : DMXRecorder.Recording)
    (hrec : st.recording = true)
    (hcur : st.current_recording = some r)
    (hfr : 0 < r.frames.length) :
    (DMXRecorder.stopRecording st now).2
        = some (DMXRecorder.finalizeRecording r (now - st.start_time)) ∧
    DMXRecorder.decodeRecording
        (DMXRecorder.encodeRecording
          (DMXRecorder.finalizeRecording r (now - st.start_time)))
      = some (DMXRecorder.finalizeRecording r (now - st.start_time)) ∧
    DMXRecorder.loadRecording st₂
        (DMXRecorder.encodeRecording
          (DMXRecorder.finalizeRecording r (now - st.start_time)))
      = ({ st₂ with
            current_playback :=
              some (DMXRecorder.finalizeRecording r (now - st.start_time)),
            playback_universes :=
              (DMXRecorder.finalizeRecording r
                (now - st.start_time)).metadata.universes,
            playback_position := 0 }, true) := by
  refine ⟨?_, decodeRecording_encode _, ?_⟩
  · unfold DMXRecorder.stopRecording
    rw [if_neg (by simp [hrec])]
    simp only [hcur]
    rw [if_pos hfr]
  · unfold DMXRecorder.loadRecording
    rw [decodeRecording_encode]

theorem recording_roundtrip_witness :
    recStateBusy.recording = true ∧
    recStateBusy.current_recording = some recOneFrame ∧
    0 < recOneFrame.frames.length ∧
    DMXRecorder.decodeRecording
        (DMXRecorder.encodeRecording
          (DMXRecorder.finalizeRecording recOneFrame
            (2 - recStateBusy.start_time)))
      = some (DMXRecorder.finalizeRecording recOneFrame
          (2 - recStateBusy.start_time)) :=
  ⟨by decide, by decide, by decide,
   (recording_roundtrip recStateBusy 2 recStateIdle recOneFrame
     (by decide) (by decide) (by decide)).2.1⟩

theorem pyTrunc_mono_nonneg (a c : ℚ) (ha : 0 ≤ a) (hac : a ≤ c) :
    pyTrunc (a * 1000) ≤ pyTrunc (c * 1000) := by
  have h0c : 0 ≤ c := le_trans ha hac
  unfold pyTrunc
  rw [if_pos (by positivity), if_pos (by positivity)]
  exact Int.floor_le_floor (by nlinarith)

theorem recordRun_inv (frame_interval start_time : ℚ)
    (frameData : ℚ → List (String × List ℕ)) :
    ∀ (ts : List ℚ) (st : DMXRecorder.RecordLoop) (b : ℚ),
      List.Chain (· ≤ ·) b ts →
      start_time ≤ b →
      (∀ f ∈ st.frames, f.timecode ≤ pyTrunc ((b - start_time) * 1000)) →
      List.Sorted (· ≤ ·) (st.frames.map DMXRecorder.RecFrame.timecode) →
      st.frame_count = st.frames.length →
      st.frames.map DMXRecorder.RecFrame.frame
        = List.range st.frames.length →
      (List.Sorted (· ≤ ·)
        ((DMXRecorder.recordRun frame_interval start_time frameData
          st ts).frames.map DMXRecorder.RecFrame.timecode) ∧
       (DMXRecorder.recordRun frame_interval start_time frameData
          st ts).frame_count
        = (DMXRecorder.recordRun frame_interval start_time frameData
            st ts).frames.length ∧
       (DMXRecorder.recordRun frame_interval start_time frameData
          st ts).frames.map DMXRecorder.RecFrame.frame
        = List.range (DMXRecorder.recordRun frame_interval start_time frameData
            st ts).frames.length) := by
  intro ts
  induction ts with
  | nil =>
    intro st b _ _ _ hsorted hcount hidx
    exact ⟨hsorted, hcount, hidx⟩
  | cons t ts ih =>
    intro st b hchain hsb hbound hsorted hcount hidx
    rcases List.chain_cons.mp hchain with ⟨hbt, hchain'⟩
    have hst : start_time ≤ t := le_trans hsb hbt
    have hstep : DMXRecorder.recordRun frame_interval start_time frameData
        st (t :: ts)
      = DMXRecorder.recordRun frame_interval start_time frameData
          (DMXRecorder.recordIter frame_interval start_time frameData st t) ts :=
      rfl
    rw [hstep]
    by_cases htr : frame_interval ≤ t - st.last_frame_time
    · have hiter : DMXRecorder.recordIter frame_interval start_time frameData st t
          = { last_frame_time := t
              frame_count := st.frame_count + 1
              frames := st.frames ++
                [{ timecode := pyTrunc ((t - start_time) * 1000)
                   frame := st.frame_count
                   data := frameData t }] } := by
        unfold DMXRecorder.recordIter
        rw [if_pos htr]
      rw [hiter]
      have htc : ∀ f ∈ st.frames,
          f.timecode ≤ pyTrunc ((t - start_time) * 1000) := by
        intro f hf
        exact le_trans (hbound f hf)
          (pyTrunc_mono_nonneg _ _ (by linarith) (by linarith))
      refine ih _ t hchain' hst ?_ ?_ ?_ ?_
      · intro f hf
        rcases List.mem_append.mp hf with hf | hf
        · exact htc f hf
        · rcases List.mem_singleton.mp hf with rfl
          exact le_refl _
      · show List.Sorted (· ≤ ·) ((st.frames ++ _).map DMXRecorder.RecFrame.timecode)
        rw [List.map_append]
        unfold List.Sorted
        rw [List.pairwise_append]
        refine ⟨hsorted, List.pairwise_singleton _ _, ?_⟩
        intro x hx y hy
        rcases List.mem_map.mp hx with ⟨f, hf, rfl⟩
        rcases List.mem_singleton.mp hy with rfl
        exact htc f hf
      · simp [hcount]
      · show (st.frames ++ _).map DMXRecorder.RecFrame.frame
          = List.range (st.frames ++ _).length
        rw [List.map_append, hidx, List.length_append]
        simp [hcount, List.range_succ]
    · have hiter : DMXRecorder.recordIter frame_interval start_time frameData st t
          = st := by
        unfold DMXRecorder.recordIter
        rw [if_neg htr]
      rw [hiter]
      refine ih st t hchain' hst ?_ hsorted hcount hidx
      intro f hf
      exact le_trans (hbound f hf)
        (pyTrunc_mono_nonneg _ _ (by linarith) (by linarith))

/-- C9: within one recording produced by the capture loop, assuming the
wall-clock samples observed by successive iterations are non-decreasing
(starting from the recorder's `start_time` and the loop's initial
`last_frame_time` sample), the sequence of captured-frame timecodes is
non-decreasing, and each frame's `frame` index is its ordinal position
starting at 0. -/
theorem record_frames_monotone (frame_interval start_time : ℚ)
    (frameData : ℚ → List (String × List ℕ)) (t₀ : ℚ) (ts : List ℚ)
    (hchain : List.Chain (· ≤ ·) start_time (t₀ :: ts)) :
    List.Sorted (· ≤ ·)
      ((DMXRecorder.recordRun frame_interval start_time frameData
        { last_frame_time := t₀, frame_count := 0, frames := [] } ts).frames.map
          DMXRecorder.RecFrame.timecode) ∧
    (DMXRecorder.recordRun frame_interval start_time frameData
        { last_frame_time := t₀, frame_count := 0, frames := [] } ts).frames.map
          DMXRecorder.RecFrame.frame
      = List.range (DMXRecorder.recordRun frame_interval start_time frameData
          { last_frame_time := t₀, frame_count := 0, frames := [] }
          ts).frames.length := by
  rcases List.chain_cons.mp hchain with ⟨h0, hchain'⟩
  obtain ⟨hs, hc, hi⟩ := recordRun_inv frame_interval start_time frameData ts
    { last_frame_time := t₀, frame_count := 0, frames := [] } t₀ hchain' h0
    (by intro f hf; cases hf) List.sorted_nil rfl rfl
  exact ⟨hs, hi⟩

theorem record_frames_monotone_witness :
    List.Chain (· ≤ ·) (0 : ℚ) (0 :: [1/40, 2/40, 1/10]) ∧
    (List.Sorted (· ≤ ·)
      ((DMXRecorder.recordRun (1/44) 0 (fun _ => [])
        { last_frame_time := 0, frame_count := 0, frames := [] }
        [1/40, 2/40, 1/10]).frames.map DMXRecorder.RecFrame.timecode) ∧
     (DMXRecorder.recordRun (1/44) 0 (fun _ => [])
        { last_frame_time := 0, frame_count := 0, frames := [] }
        [1/40, 2/40, 1/10]).frames.map DMXRecorder.RecFrame.frame
      = List.range (DMXRecorder.recordRun (1/44) 0 (fun _ => [])
          { last_frame_time := 0, frame_count := 0, frames := [] }
          [1/40, 2/40, 1/10]).frames.length) :=
  ⟨by norm_num [List.chain_cons],
   record_frames_monotone (1/44) 0 (fun _ => []) 0 [1/40, 2/40, 1/10]
     (by norm_num [List.chain_cons])⟩
